import Mathlib

/-!
Shallow embedding of the webhook-driven WhatsApp relay
(repository sahilkargutkar/webwhatsappHandler, file src/unnamed/part_000,
which is the current revision of the server; src/index.js is an older
revision of the same file).

The durable store (Supabase) is modelled as two in-memory tables:
an append-only `messages` ledger and a `contacts` table keyed by phone.
Network/database failures are modelled by boolean flags in `Config`
(`configured` = the Supabase client exists, `insertOk` = a messages
insert succeeds, `upsertOk` = a contacts upsert succeeds, `rpcOk` = the
increment_contact_messages RPC succeeds, `updateOk` = a messages update
succeeds, `sendOk` = an outbound WhatsApp API call succeeds).
Timestamps are modelled as naturals (`now` is passed in by the driver);
JSON `raw` audit blobs are not modelled (they are opaque copies of the
payload and no operation reads them back).
-/

namespace WAHandler

/-- An interactive list/button selection `{id, title}` as delivered in
`interactive.list_reply` / `interactive.button_reply`. -/
structure Selection where
  id : String
  title : String
  deriving Repr, DecidableEq

/-- The `interactive` object of an incoming message. -/
structure InteractiveObj where
  type : String
  list_reply : Option Selection := none
  button_reply : Option Selection := none
  deriving Repr, DecidableEq

/-- The JS object literal passed to `logMessageToSupabase` (part_000 lines
243-250, 280-290, 359-366, 387-394, 417-424, 443-450): any omitted key is
`none`.  `timestamp` is the provider's epoch-seconds value. -/
structure MsgPayload where
  kind : String
  «from» : Option String := none
  «to» : Option String := none
  type : Option String := none
  body : Option String := none
  message_id : Option String := none
  reply_to_message_id : Option String := none
  status : Option String := none
  timestamp : Option Nat := none
  interactive : Option InteractiveObj := none
  interactive_selection : Option Selection := none
  deriving Repr, DecidableEq

/-- One row of the `messages` table: the insert payload plus the
normalized `phone` column (part_000 line 76) and the store-assigned
`created_at` / mutable `updated_at` columns. -/
structure MessageRow extends MsgPayload where
  phone : Option String := none
  created_at : Nat
  updated_at : Option Nat := none
  deriving Repr, DecidableEq

/-- One row of the `contacts` table (supabase/messages.sql):
`phone` is unique, `total_messages` defaults to 0. -/
structure ContactRow where
  phone : String
  name : Option String := none
  last_message_id : Option String := none
  last_body : Option String := none
  last_type : Option String := none
  last_kind : Option String := none
  last_direction : Option String := none
  last_sender_id : Option String := none
  last_recipient_phone : Option String := none
  last_timestamp : Nat
  total_messages : Nat := 0
  updated_at : Nat
  deriving Repr, DecidableEq

/-- The whole durable store. -/
structure Store where
  messages : List MessageRow := []
  contacts : List ContactRow := []
  deriving Repr, DecidableEq

/-- Environment plus failure-mode flags for the external collaborators. -/
structure Config where
  phoneNumberId : String
  configured : Bool := true
  insertOk : Bool := true
  upsertOk : Bool := true
  rpcOk : Bool := true
  updateOk : Bool := true
  sendOk : Bool := true
  deriving Repr, DecidableEq

/-- An outbound dispatch through the WhatsApp API helpers:
`Send.text` = `sendMessage`, `Send.reply` = `replyMessage` (with
`context.message_id`), `Send.interactiveCta` = `sendCallAndWebsiteButtons`. -/
inductive Send where
  | text (toPhone body : String)
  | reply (toPhone body inReplyTo : String)
  | interactiveCta (toPhone : String)
  deriving Repr, DecidableEq

/-- HTTP responses of the `/webhook` route. -/
inductive Resp where
  | ok (body : String)
  | invalid (body : String)
  | error (body : String)
  deriving Repr, DecidableEq

/-- Whether a response is the 400 client error of the webhook route. -/
def Resp.isClientError : Resp → Bool
  | .invalid _ => true
  | _ => false

/-- The JS `update` argument of `upsertContact`: omitted/undefined keys
are `none` (JS `update.x || null` maps them to SQL null). -/
structure ContactUpdate where
  name : Option String := none
  last_message_id : Option String := none
  last_body : Option String := none
  last_type : Option String := none
  last_kind : Option String := none
  last_direction : Option String := none
  last_sender_id : Option String := none
  last_recipient_phone : Option String := none
  last_timestamp : Option Nat := none
  deriving Repr, DecidableEq

/-- `contacts.upsert(payload, { onConflict: 'phone' })`: replace the row
with the same phone (keeping its `total_messages`, which is not in the
payload), or insert the payload as a fresh row. -/
def upsertByPhone : List ContactRow → ContactRow → List ContactRow
  | [], p => [p]
  | c :: cs, p =>
    if c.phone = p.phone then { p with total_messages := c.total_messages } :: cs
    else c :: upsertByPhone cs p

/-- The `increment_contact_messages` RPC: server-side
`total_messages := total_messages + 1` on the row for `ph`. -/
def incrementTotal : List ContactRow → String → List ContactRow
  | [], _ => []
  | c :: cs, ph =>
    if c.phone = ph then { c with total_messages := c.total_messages + 1 } :: cs
    else c :: incrementTotal cs ph

/-- `upsertContact(phone, update)` (part_000 lines 94-126): build a full
payload with every omitted field nulled (`update.x || null`),
`last_timestamp` defaulted to now and `updated_at := now`; upsert on
`phone`; on success fire the increment RPC. -/
def upsertContact (cfg : Config) (now : Nat) (st : Store) (phone : String)
    (update : ContactUpdate) : Store :=
  if cfg.configured then
    let payload : ContactRow :=
      { phone := phone
        name := update.name
        last_message_id := update.last_message_id
        last_body := update.last_body
        last_type := update.last_type
        last_kind := update.last_kind
        last_direction := update.last_direction
        last_sender_id := update.last_sender_id
        last_recipient_phone := update.last_recipient_phone
        last_timestamp := update.last_timestamp.getD now
        total_messages := 0
        updated_at := now }
    if cfg.upsertOk then
      let contacts1 := upsertByPhone st.contacts payload
      let contacts2 := if cfg.rpcOk then incrementTotal contacts1 phone else contacts1
      { st with contacts := contacts2 }
    else st
  else st

/-- `logMessageToSupabase(payload)` (part_000 lines 67-92): when the store
is configured, normalize `phone` (`from` when kind=incoming else `to`)
and insert; returns whether the insert succeeded. -/
def logMessageToSupabase (cfg : Config) (now : Nat) (st : Store)
    (p : MsgPayload) : Store × Bool :=
  if cfg.configured then
    let normalizedPhone := if p.kind = "incoming" then p.«from» else p.«to»
    if cfg.insertOk then
      ({ st with messages :=
          st.messages ++ [{ toMsgPayload := p, phone := normalizedPhone,
                            created_at := now, updated_at := none }] }, true)
    else (st, false)
  else (st, false)

/-- `contacts.select(...).eq('phone', phone)`: `phone` is unique in the
table, so first match models PostgREST `.single()`. -/
def findContact (cs : List ContactRow) (phone : String) : Option ContactRow :=
  match cs with
  | [] => none
  | c :: cs => if c.phone = phone then some c else findContact cs phone

/-- `messages.select(...).eq('message_id', id).single()` (part_000 lines
220-224): PostgREST `.single()` yields data only when exactly one row
matches; on 0 or several rows it errors and the destructured `data` is
null. -/
def findSingle (rows : List MessageRow) (mid : String) : Option MessageRow :=
  match rows.filter (fun r => r.message_id = some mid) with
  | [r] => some r
  | _ => none

/-- `messages.update({status, updated_at}).eq('message_id', id)`
(part_000 lines 228-234). -/
def updateStatusRows (rows : List MessageRow) (mid statusVal : String)
    (now : Nat) : List MessageRow :=
  rows.map (fun r =>
    if r.message_id = some mid then
      { r with status := some statusVal, updated_at := some now }
    else r)

/-- `hasReceivedWelcome(phone)` (part_000 lines 333-341): true iff the
stored contact's `last_kind` is 'reply'; false when the store is not
configured or no row exists. -/
def hasReceivedWelcome (cfg : Config) (st : Store) (phone : String) : Bool :=
  if cfg.configured then
    match findContact st.contacts phone with
    | some c => c.last_kind == some "reply"
    | none => false
  else false

/-- The canned welcome template (part_000 lines 129-142; string content is
an external collaborator per the design, reproduced from the clean
revision of the same template in src/index.js). -/
def WELCOME_MESSAGE : String :=
  "Hi! 👋\n\nThanks for reaching out.\n\nI help businesses grow with:\n\n🌐 Website Development\n🎨 UI/UX & Website Design\n🚀 SEO & Search Ranking Improvement\n📈 Google Analytics & Tracking Setup\n⚙️ Website Speed Optimization\n💼 E-commerce & Custom Web Solutions\n\nHow can I help you today? 🙂"

/-- The `statuses[0]` object of a webhook payload. -/
structure StatusObj where
  id : String
  status : String
  recipient_id : Option String := none
  «from» : Option String := none
  deriving Repr, DecidableEq

/-- The `text` object of an incoming message. -/
structure TextObj where
  body : String
  deriving Repr, DecidableEq

/-- The `messages[0]` object of a webhook payload. -/
structure MessageObj where
  «from» : String
  «to» : Option String := none
  id : String
  type : String
  timestamp : Option Nat := none
  text : Option TextObj := none
  interactive : Option InteractiveObj := none
  deriving Repr, DecidableEq

/-- The `value` object of a webhook change; missing `statuses`/`messages`
keys behave like empty lists under `value.statuses?.[0]`. -/
structure ChangeValue where
  statuses : List StatusObj := []
  messages : List MessageObj := []
  deriving Repr, DecidableEq

/-- One element of `entry[0].changes`. -/
structure Change where
  value : Option ChangeValue := none
  deriving Repr, DecidableEq

/-- One element of `entry`. -/
structure Entry where
  changes : Option (List Change) := none
  deriving Repr, DecidableEq

/-- The webhook request body (`req.body`): `entry` may be absent. -/
structure WebhookBody where
  entry : Option (List Entry) := none
  deriving Repr, DecidableEq

/-- The result of running one handler: updated store, successful outbound
dispatches, and whether the handler finished without throwing. -/
abbrev HandlerResult := Store × List Send × Bool

/-- `handleTextMessage(message)` (part_000 lines 343-406): look up the
welcome state fresh, then either send the welcome as a reply-context
message, log it and upsert `last_kind='reply'`, or send the
call-and-website buttons, log and upsert likewise.  A send failure is
rethrown before any log/upsert of this branch. -/
def handleTextMessage (cfg : Config) (now : Nat) (st : Store)
    (m : MessageObj) : HandlerResult :=
  let alreadyWelcomed := hasReceivedWelcome cfg st m.«from»
  if !alreadyWelcomed then
    if cfg.sendOk then
      let st1 := (logMessageToSupabase cfg now st
        { kind := "reply", «to» := some m.«from», «from» := some cfg.phoneNumberId,
          type := some "text", body := some WELCOME_MESSAGE,
          reply_to_message_id := some m.id }).1
      let st2 := upsertContact cfg now st1 m.«from»
        { last_message_id := some m.id
          last_body := some WELCOME_MESSAGE
          last_type := some "text"
          last_kind := some "reply"
          last_direction := some "reply"
          last_sender_id := some cfg.phoneNumberId
          last_recipient_phone := some m.«from» }
      (st2, [Send.reply m.«from» WELCOME_MESSAGE m.id], true)
    else (st, [], false)
  else
    if cfg.sendOk then
      let st1 := (logMessageToSupabase cfg now st
        { kind := "reply", «to» := some m.«from», «from» := some cfg.phoneNumberId,
          type := some "interactive", body := some "Get in touch",
          reply_to_message_id := some m.id }).1
      let st2 := upsertContact cfg now st1 m.«from»
        { last_message_id := some m.id
          last_body := some "Call/Website buttons sent"
          last_type := some "interactive"
          last_kind := some "reply"
          last_direction := some "reply"
          last_sender_id := some cfg.phoneNumberId
          last_recipient_phone := some m.«from» }
      (st2, [Send.interactiveCta m.«from»], true)
    else (st, [], false)

/-- The confirmation text synthesised for a selection
(`You selected the option/button with ID ... - Title ...`). -/
def selectionText (noun : String) (r : Selection) : String :=
  "You selected the " ++ noun ++ " with ID " ++ r.id ++ " - Title " ++ r.title

/-- `handleInteractiveMessage(message)` (part_000 lines 408-462): on a
list or button reply, send the confirmation as a plain (not
reply-context) message, log it with `interactive_selection`, and upsert
`last_kind='reply'`.  A missing `interactive` object or sub-payload
throws a TypeError. -/
def handleInteractiveMessage (cfg : Config) (now : Nat) (st : Store)
    (m : MessageObj) : HandlerResult :=
  match m.interactive with
  | none => (st, [], false)
  | some itv =>
    let handleSel (noun : String) (r : Selection) : HandlerResult :=
      if cfg.sendOk then
        let st1 := (logMessageToSupabase cfg now st
          { kind := "reply", «to» := some m.«from», «from» := some cfg.phoneNumberId,
            type := some "text", body := some (selectionText noun r),
            interactive_selection := some r }).1
        let st2 := upsertContact cfg now st1 m.«from»
          { last_message_id := some m.id
            last_body := some (selectionText noun r)
            last_type := some "text"
            last_kind := some "reply"
            last_direction := some "reply"
            last_sender_id := some cfg.phoneNumberId
            last_recipient_phone := some m.«from» }
        (st2, [Send.text m.«from» (selectionText noun r)], true)
      else (st, [], false)
    if itv.type = "list_reply" then
      match itv.list_reply with
      | none => (st, [], false)
      | some r => handleSel "option" r
    else if itv.type = "button_reply" then
      match itv.button_reply with
      | none => (st, [], false)
      | some r => handleSel "button" r
    else (st, [], true)

/-- `handleIncomingMessage(message)` (part_000 lines 318-330): dispatch on
`message.type`; unhandled types do nothing. -/
def handleIncomingMessage (cfg : Config) (now : Nat) (st : Store)
    (m : MessageObj) : HandlerResult :=
  if m.type = "text" then handleTextMessage cfg now st m
  else if m.type = "interactive" then handleInteractiveMessage cfg now st m
  else (st, [], true)

/-- The messages half of the webhook route (part_000 lines 265-304): the
self-loop short-circuit, then `handleIncomingMessage` with its errors
swallowed, then the incoming ledger log, then the incoming contact
upsert, then the 200 acknowledgment. -/
def processMessages (cfg : Config) (now : Nat) (st : Store)
    (messages? : Option MessageObj) : Store × List Send × Resp :=
  match messages? with
  | none => (st, [], .ok "Webhook processed")
  | some m =>
    if m.«from» = cfg.phoneNumberId then
      (st, [], .ok "Webhook processed - self message ignored")
    else
      let (st3, sends, _completed) := handleIncomingMessage cfg now st m
      let st4 := (logMessageToSupabase cfg now st3
        { kind := "incoming", «from» := some m.«from», «to» := m.«to»,
          type := some m.type, body := (m.text.map TextObj.body),
          interactive := m.interactive, message_id := some m.id,
          timestamp := m.timestamp }).1
      let st5 := upsertContact cfg now st4 m.«from»
        { last_message_id := some m.id
          last_body := (m.text.map TextObj.body)
          last_type := some m.type
          last_kind := some "incoming"
          last_direction := some "incoming"
          last_sender_id := some m.«from»
          last_recipient_phone := none
          last_timestamp := m.timestamp.map (· * 1000) }
      (st5, sends, .ok "Webhook processed")

/-- The status half of the webhook route (part_000 lines 216-263): look
up the existing ledger row by message_id (`.single()`); update its
status in place when exactly one exists, otherwise append a new
kind=status row; then upsert the counterparty contact.  When the store
is not configured the direct `supabase.from(...)` call throws and the
route answers 500. -/
def processStatus (cfg : Config) (now : Nat) (st : Store)
    (s : StatusObj) (messages? : Option MessageObj) : Store × List Send × Resp :=
  if cfg.configured then
    let st1 :=
      match findSingle st.messages s.id with
      | some _ =>
        if cfg.updateOk then
          { st with messages := updateStatusRows st.messages s.id s.status now }
        else st
      | none =>
        (logMessageToSupabase cfg now st
          { kind := "status", «from» := some cfg.phoneNumberId,
            message_id := some s.id, status := some s.status,
            «to» := s.recipient_id }).1
    let st2 :=
      match ((s.recipient_id).or (s.«from»)).or (messages?.map MessageObj.from) with
      | none => st1
      | some ph => upsertContact cfg now st1 ph
          { last_message_id := some s.id
            last_body := some s.status
            last_type := some "status"
            last_kind := some "status"
            last_direction := some "incoming"
            last_sender_id := some cfg.phoneNumberId
            last_recipient_phone := s.recipient_id }
    processMessages cfg now st2 messages?
  else (st, [], .error "Internal server error")

/-- `app.post('/webhook')` (part_000 lines 196-309): envelope
validation, then the status branch and the message branch in order. -/
def processWebhook (cfg : Config) (now : Nat) (st : Store)
    (body : WebhookBody) : Store × List Send × Resp :=
  match body.entry with
  | none => (st, [], .invalid "Invalid Request")
  | some [] => (st, [], .invalid "Invalid Request")
  | some (e :: _) =>
    match e.changes with
    | none => (st, [], .invalid "Invalid Request")
    | some [] => (st, [], .invalid "Invalid Request")
    | some (c :: _) =>
      match c.value with
      | none => (st, [], .error "Internal server error")
      | some value =>
        let statuses? := value.statuses.head?
        let messages? := value.messages.head?
        match statuses? with
        | some s => processStatus cfg now st s messages?
        | none => processMessages cfg now st messages?

/-- The contact upsert performed by `app.post('/contacts/set-name')`
(part_000 line 8): a delta carrying only `name`. -/
def setNameUpsert (cfg : Config) (now : Nat) (st : Store)
    (phone nm : String) : Store :=
  upsertContact cfg now st phone { name := some nm }

/-- Reverse-chronological order on ledger rows
(`.order('created_at', { ascending: false })`). -/
def byCreatedDesc (a b : MessageRow) : Prop :=
  b.created_at ≤ a.created_at

instance : DecidableRel byCreatedDesc :=
  fun a b => Nat.decLe b.created_at a.created_at

instance : IsTotal MessageRow byCreatedDesc :=
  ⟨fun a b => Nat.le_total b.created_at a.created_at⟩

instance : IsTrans MessageRow byCreatedDesc :=
  ⟨fun _ _ _ hab hbc => Nat.le_trans hbc hab⟩

/-- The query parameters of `app.get('/logs')`; `limit`/`page` are the
results of JS `Number(...)` on the raw query strings, with `none`
standing for an absent or non-numeric (NaN) value. -/
structure LogsQuery where
  phone : Option String := none
  kind : Option String := none
  type : Option String := none
  limit : Option Int := none
  page : Option Int := none
  deriving Repr, DecidableEq

/-- JS `Number(x) || d`: NaN (modelled `none`) and 0 are falsy and give
the default. -/
def jsNumberOr (o : Option Int) (d : Int) : Int :=
  match o with
  | none => d
  | some v => if v = 0 then d else v

/-- The `/logs` row filter (part_000 lines 734-743): phone matches the
normalized `phone` column or either direction; `kind`/`type` match
exactly. -/
def matchesLogsFilter (q : LogsQuery) (r : MessageRow) : Bool :=
  (match q.phone with
   | none => true
   | some ph => r.phone == some ph || r.«from» == some ph || r.«to» == some ph)
  && (match q.kind with
      | none => true
      | some k => r.kind == k)
  && (match q.type with
      | none => true
      | some t => r.type == some t)

/-- PostgREST `.range(lo, hi)` over an ordered result set: the rows with
0-indexed positions lo..hi.  An inverted or negative range is rejected
by the store with an error. -/
def rangeSlice (rows : List MessageRow) (lo hi : Int) : Option (List MessageRow) :=
  if 0 ≤ lo ∧ lo ≤ hi then
    some ((rows.drop lo.toNat).take (hi - lo + 1).toNat)
  else none

/-- The JSON answer of `app.get('/logs')`. -/
inductive LogsResult where
  | err (msg : String)
  | page (page : Int) (limit : Int) (total : Nat) (data : List MessageRow)
  deriving Repr, DecidableEq

/-- `app.get('/logs')` (part_000 lines 717-755): clamp limit/page,
filter, order reverse-chronologically, slice the requested range and
return it with the exact total count. -/
def logsRoute (cfg : Config) (st : Store) (q : LogsQuery) : LogsResult :=
  if cfg.configured then
    let l : Int := min (jsNumberOr q.limit 50) 200
    let p : Int := max (jsNumberOr q.page 1) 1
    let lo := (p - 1) * l
    let hi := lo + l - 1
    let matching := (st.messages.filter (matchesLogsFilter q)).insertionSort byCreatedDesc
    match rangeSlice matching lo hi with
    | none => .err "range error"
    | some data => .page p l matching.length data
  else .err "Supabase not configured"

/-! ### Concrete fixtures used by witnesses and counterexamples -/

/-- A fully working environment whose own provider identity is "BIZ". -/
def cfgA : Config := { phoneNumberId := "BIZ" }

/-- A webhook body carrying exactly one incoming message and no status. -/
def msgOnlyBody (m : MessageObj) : WebhookBody :=
  ⟨some [⟨some [⟨some ⟨[], [m]⟩⟩]⟩]⟩

/-- A webhook body carrying exactly one status and no message. -/
def statusOnlyBody (s : StatusObj) : WebhookBody :=
  ⟨some [⟨some [⟨some ⟨[s], []⟩⟩]⟩]⟩

/-- A structurally valid webhook body carrying neither a status nor a
message object. -/
def noObjBody : WebhookBody :=
  ⟨some [⟨some [⟨some ⟨[], []⟩⟩]⟩]⟩

/-- First text message from a fresh phone. -/
def msg1 : MessageObj :=
  { «from» := "15550001", id := "wamid.1", type := "text", text := some ⟨"hello"⟩ }

/-- Second text message from the same phone. -/
def msg2 : MessageObj :=
  { «from» := "15550001", id := "wamid.2", type := "text", text := some ⟨"again"⟩ }

/-- The stored `name` of a phone's contact row: `none` when no row
exists, `some n` with the nullable column value otherwise. -/
def nameOf (st : Store) (ph : String) : Option (Option String) :=
  (findContact st.contacts ph).map ContactRow.name

/-! ### Small frame lemmas about the store operations -/

theorem logMessage_contacts (cfg : Config) (now : Nat) (st : Store) (p : MsgPayload) :
    ((logMessageToSupabase cfg now st p).1).contacts = st.contacts := by
  cases hc : cfg.configured <;> cases hi : cfg.insertOk <;>
    simp [logMessageToSupabase, hc, hi]

theorem logMessage_insertFail (cfg : Config) (now : Nat) (st : Store) (p : MsgPayload)
    (h : cfg.insertOk = false) : (logMessageToSupabase cfg now st p).1 = st := by
  cases hc : cfg.configured <;> simp [logMessageToSupabase, hc, h]

theorem upsertContact_messages (cfg : Config) (now : Nat) (st : Store)
    (ph : String) (u : ContactUpdate) :
    (upsertContact cfg now st ph u).messages = st.messages := by
  cases hc : cfg.configured <;> cases hu : cfg.upsertOk <;>
    simp [upsertContact, hc, hu]

/-! ### C1 -/

/-- C1 (code bug): on a first-contact incoming text the engine does send
exactly the welcome content as a reply-context message, but the webhook
route's trailing `last_kind='incoming'` upsert (part_000 lines 292-301)
runs after `handleTextMessage`'s `last_kind='reply'` upsert, so the
contact record is left with `lastKind='incoming'`, not `'reply'`, and
the very next text from the same phone receives the welcome again
instead of the call-to-action. -/
theorem firstContact_welcome_but_lastKind_clobbered :
    (processWebhook cfgA 1 {} (msgOnlyBody msg1)).2.1
        = [Send.reply "15550001" WELCOME_MESSAGE "wamid.1"]
    ∧ ((findContact (processWebhook cfgA 1 {} (msgOnlyBody msg1)).1.contacts
        "15550001").map ContactRow.last_kind) = some (some "incoming")
    ∧ (processWebhook cfgA 2 (processWebhook cfgA 1 {} (msgOnlyBody msg1)).1
        (msgOnlyBody msg2)).2.1
        = [Send.reply "15550001" WELCOME_MESSAGE "wamid.2"] :=
  ⟨rfl, rfl, rfl⟩

/-! ### C4 -/

/-- C4: an incoming message whose sender equals the system's own
PHONE_NUMBER_ID is short-circuited: the store is unchanged, nothing is
sent, and the route acknowledges with the self-message body. -/
theorem selfMessage_no_effects (cfg : Config) (now : Nat) (st : Store)
    (m : MessageObj) (hself : m.«from» = cfg.phoneNumberId) :
    processWebhook cfg now st (msgOnlyBody m)
      = (st, [], .ok "Webhook processed - self message ignored") := by
  simp [processWebhook, msgOnlyBody, processMessages, hself]

/-- Witness for C4 at a concrete self-originated message. -/
theorem selfMessage_no_effects_witness :
    processWebhook cfgA 0 {} (msgOnlyBody { «from» := "BIZ", id := "x", type := "text" })
      = ({}, [], .ok "Webhook processed - self message ignored") :=
  selfMessage_no_effects cfgA 0 {} _ rfl

/-! ### C5 -/

/-- C5 counterexample: a structurally valid payload that carries neither
a status nor a message object is NOT rejected with a client error: the
route acknowledges it with 200 "Webhook processed" (and does nothing),
refuting the claim that such payloads get a client error. -/
theorem emptyValue_not_rejected :
    processWebhook cfgA 0 {} noObjBody = ({}, [], .ok "Webhook processed")
    ∧ (Resp.ok "Webhook processed").isClientError = false :=
  ⟨rfl, rfl⟩

/-- C5 (amended): payloads missing the outer envelope (absent or empty
`entry`, absent or empty `changes`) are rejected with the 400 client
error and no processing; a payload with an intact envelope but neither
a status nor a message object is instead acknowledged with 200, still
with no processing (no write, no send). -/
theorem malformed_payload_handling (cfg : Config) (now : Nat) (st : Store) :
    processWebhook cfg now st ⟨none⟩ = (st, [], .invalid "Invalid Request")
    ∧ processWebhook cfg now st ⟨some []⟩ = (st, [], .invalid "Invalid Request")
    ∧ processWebhook cfg now st ⟨some [{ changes := none }]⟩
        = (st, [], .invalid "Invalid Request")
    ∧ processWebhook cfg now st ⟨some [{ changes := some [] }]⟩
        = (st, [], .invalid "Invalid Request")
    ∧ processWebhook cfg now st
        ⟨some [{ changes := some [{ value := some { statuses := [], messages := [] } }] }]⟩
        = (st, [], .ok "Webhook processed") :=
  ⟨rfl, rfl, rfl, rfl, rfl⟩

/-! ### The contact upsert and the counter -/

/-- The stored `total_messages` of a phone's row (0 when absent). -/
def oldTotal (cs : List ContactRow) (ph : String) : Nat :=
  ((findContact cs ph).map ContactRow.total_messages).getD 0

/-- The stored `total_messages` of a phone's row in a store. -/
def totalMessagesOf (st : Store) (ph : String) : Nat :=
  oldTotal st.contacts ph

theorem findContact_upsertByPhone (cs : List ContactRow) (p : ContactRow)
    (hp : p.total_messages = 0) :
    findContact (upsertByPhone cs p) p.phone
      = some { p with total_messages := oldTotal cs p.phone } := by
  induction cs with
  | nil => simp [upsertByPhone, findContact, oldTotal, ← hp]
  | cons c cs ih =>
    by_cases h : c.phone = p.phone
    · simp [upsertByPhone, h, findContact, oldTotal]
    · simp only [upsertByPhone, if_neg h, findContact, if_neg h]
      rw [ih]
      simp [oldTotal, findContact, h]

theorem findContact_upsertByPhone_ne (cs : List ContactRow) (p : ContactRow)
    (q : String) (h : q ≠ p.phone) :
    findContact (upsertByPhone cs p) q = findContact cs q := by
  induction cs with
  | nil => simp [upsertByPhone, findContact, h.symm]
  | cons c cs ih =>
    by_cases hc : c.phone = p.phone
    · have hcq : ¬ c.phone = q := fun hh => h (hc ▸ hh ▸ rfl)
      simp [upsertByPhone, hc, findContact, h.symm, hcq]
    · simp [upsertByPhone, hc, findContact, ih]

theorem findContact_incrementTotal (cs : List ContactRow) (ph : String) :
    findContact (incrementTotal cs ph) ph
      = (findContact cs ph).map
          (fun c => { c with total_messages := c.total_messages + 1 }) := by
  induction cs with
  | nil => simp [incrementTotal, findContact]
  | cons c cs ih =>
    by_cases h : c.phone = ph
    · simp [incrementTotal, h, findContact]
    · simp [incrementTotal, h, findContact, ih]

theorem findContact_incrementTotal_ne (cs : List ContactRow) (ph q : String)
    (h : q ≠ ph) :
    findContact (incrementTotal cs ph) q = findContact cs q := by
  induction cs with
  | nil => simp [incrementTotal]
  | cons c cs ih =>
    by_cases hc : c.phone = ph
    · simp [incrementTotal, hc, findContact, h.symm]
    · simp [incrementTotal, hc, findContact, ih]

/-- The row `upsertContact` leaves for the touched phone when the store
is configured and the upsert succeeds: the full nulled-and-merged
payload, with `total_messages` preserved and bumped by the RPC when the
RPC succeeds. -/
theorem findContact_upsertContact (cfg : Config) (now : Nat) (st : Store)
    (ph : String) (u : ContactUpdate)
    (hc : cfg.configured = true) (hu : cfg.upsertOk = true) :
    findContact (upsertContact cfg now st ph u).contacts ph
      = some { phone := ph, name := u.name,
               last_message_id := u.last_message_id, last_body := u.last_body,
               last_type := u.last_type, last_kind := u.last_kind,
               last_direction := u.last_direction, last_sender_id := u.last_sender_id,
               last_recipient_phone := u.last_recipient_phone,
               last_timestamp := u.last_timestamp.getD now,
               total_messages :=
                 oldTotal st.contacts ph + (if cfg.rpcOk then 1 else 0),
               updated_at := now } := by
  cases hr : cfg.rpcOk with
  | false =>
    simp only [upsertContact, hc, hu, hr, if_true, Bool.false_eq_true, if_false]
    rw [findContact_upsertByPhone st.contacts _ rfl]
    simp
  | true =>
    simp only [upsertContact, hc, hu, hr, if_true]
    rw [findContact_incrementTotal, findContact_upsertByPhone st.contacts _ rfl]
    simp

theorem findContact_upsertContact_ne (cfg : Config) (now : Nat) (st : Store)
    (ph : String) (u : ContactUpdate) (q : String) (h : q ≠ ph) :
    findContact (upsertContact cfg now st ph u).contacts q
      = findContact st.contacts q := by
  cases hc : cfg.configured with
  | false => simp [upsertContact, hc]
  | true =>
    cases hu : cfg.upsertOk with
    | false => simp [upsertContact, hc, hu]
    | true =>
      cases hr : cfg.rpcOk with
      | false =>
        simp only [upsertContact, hc, hu, hr, if_true, Bool.false_eq_true, if_false]
        exact findContact_upsertByPhone_ne st.contacts _ q h
      | true =>
        simp only [upsertContact, hc, hu, hr, if_true]
        rw [findContact_incrementTotal_ne _ _ _ h]
        exact findContact_upsertByPhone_ne st.contacts _ q h

/-! ### C6 -/

/-- C6: each `upsertContact` call (one per processed event attributable
to the phone) increments the stored `total_messages` by exactly one via
the server-side RPC (never a caller read-modify-write), the counter
never decreases under any failure mode, and calls for one phone leave
every other phone's counter unchanged. -/
theorem totalMessages_incremented_once (cfg : Config) (now : Nat) (st : Store)
    (ph : String) (u : ContactUpdate)
    (hc : cfg.configured = true) (hu : cfg.upsertOk = true) (hr : cfg.rpcOk = true) :
    totalMessagesOf (upsertContact cfg now st ph u) ph
        = totalMessagesOf st ph + 1
    ∧ (∀ cfg2 : Config, ∀ now2 : Nat, ∀ u2 : ContactUpdate,
        totalMessagesOf st ph ≤ totalMessagesOf (upsertContact cfg2 now2 st ph u2) ph)
    ∧ (∀ q : String, q ≠ ph →
        totalMessagesOf (upsertContact cfg now st ph u) q = totalMessagesOf st q) := by
  refine ⟨?_, ?_, ?_⟩
  · simp [totalMessagesOf, oldTotal, findContact_upsertContact cfg now st ph u hc hu, hr]
  · intro cfg2 now2 u2
    cases hc2 : cfg2.configured with
    | false => simp [upsertContact, hc2]
    | true =>
      cases hu2 : cfg2.upsertOk with
      | false => simp [upsertContact, hc2, hu2]
      | true =>
        simp only [totalMessagesOf, oldTotal,
          findContact_upsertContact cfg2 now2 st ph u2 hc2 hu2]
        cases cfg2.rpcOk <;> simp [oldTotal]
  · intro q hq
    simp [totalMessagesOf, oldTotal, findContact_upsertContact_ne cfg now st ph u q hq]

/-- Witness for C6 at a concrete store holding one contact with three
prior messages. -/
theorem totalMessages_incremented_once_witness :
    totalMessagesOf
        (upsertContact cfgA 5
          { contacts := [{ phone := "p1", last_timestamp := 0,
                           total_messages := 3, updated_at := 0 }] }
          "p1" { last_kind := some "incoming" }) "p1"
      = totalMessagesOf
          ({ contacts := [{ phone := "p1", last_timestamp := 0,
                            total_messages := 3, updated_at := 0 }] } : Store) "p1" + 1 :=
  (totalMessages_incremented_once cfgA 5 _ "p1" _ rfl rfl rfl).1

/-! ### C10 -/

/-- C10: an `upsertContact` delta that omits the descriptive fields —
such as the set-name action, which supplies only `name` — overwrites
every omitted descriptive field of an existing contact row to null and
resets `last_timestamp` (and `updated_at`) to the current time, instead
of leaving them unchanged. -/
theorem setName_wipes_descriptive_fields (cfg : Config) (now : Nat) (st : Store)
    (ph nm : String) (c : ContactRow)
    (hc : cfg.configured = true) (hu : cfg.upsertOk = true)
    (hfind : findContact st.contacts ph = some c) :
    ∃ t : Nat, findContact (setNameUpsert cfg now st ph nm).contacts ph
      = some { phone := ph, name := some nm,
               last_message_id := none, last_body := none, last_type := none,
               last_kind := none, last_direction := none, last_sender_id := none,
               last_recipient_phone := none, last_timestamp := now,
               total_messages := t, updated_at := now } := by
  refine ⟨c.total_messages + (if cfg.rpcOk then 1 else 0), ?_⟩
  rw [setNameUpsert, findContact_upsertContact cfg now st ph _ hc hu]
  simp [oldTotal, hfind]

/-- Witness for C10: a record whose descriptive fields were all set by
an earlier incoming message loses them to the set-name action. -/
theorem setName_wipes_descriptive_fields_witness :
    ∃ t : Nat, findContact
      (setNameUpsert cfgA 9
        { contacts := [{ phone := "p1", name := none,
                         last_message_id := some "wamid.1",
                         last_body := some "hello", last_type := some "text",
                         last_kind := some "incoming",
                         last_direction := some "incoming",
                         last_sender_id := some "p1",
                         last_recipient_phone := some "p1",
                         last_timestamp := 4, total_messages := 1,
                         updated_at := 4 }] }
        "p1" "Alice").contacts "p1"
      = some { phone := "p1", name := some "Alice",
               last_message_id := none, last_body := none, last_type := none,
               last_kind := none, last_direction := none, last_sender_id := none,
               last_recipient_phone := none, last_timestamp := 9,
               total_messages := t, updated_at := 9 } :=
  setName_wipes_descriptive_fields cfgA 9 _ "p1" "Alice" _ rfl rfl rfl

/-! ### C2 -/

/-- C2: when the stored contact record for the sender has
`last_kind='reply'` — read fresh through `hasReceivedWelcome` — an
incoming text message gets exactly the call-to-action interactive send
and never the welcome content. -/
theorem returningContact_sends_cta (cfg : Config) (now : Nat) (st : Store)
    (m : MessageObj) (c : ContactRow)
    (hc : cfg.configured = true) (hs : cfg.sendOk = true)
    (hne : m.«from» ≠ cfg.phoneNumberId) (hty : m.type = "text")
    (hfind : findContact st.contacts m.«from» = some c)
    (hkind : c.last_kind = some "reply") :
    (processWebhook cfg now st (msgOnlyBody m)).2.1 = [Send.interactiveCta m.«from»]
    ∧ (∀ rid : String,
        Send.reply m.«from» WELCOME_MESSAGE rid ∉ (processWebhook cfg now st (msgOnlyBody m)).2.1)
    ∧ Send.text m.«from» WELCOME_MESSAGE ∉ (processWebhook cfg now st (msgOnlyBody m)).2.1 := by
  have hwel : hasReceivedWelcome cfg st m.«from» = true := by
    simp [hasReceivedWelcome, hc, hfind, hkind]
  have hsends : (processWebhook cfg now st (msgOnlyBody m)).2.1
      = [Send.interactiveCta m.«from»] := by
    simp [processWebhook, msgOnlyBody, processMessages, hne,
      handleIncomingMessage, hty, handleTextMessage, hwel, hs]
  refine ⟨hsends, ?_, ?_⟩
  · intro rid
    rw [hsends]
    simp
  · rw [hsends]
    simp

/-- Witness for C2: a phone whose stored `last_kind` is 'reply' gets the
call-to-action buttons. -/
theorem returningContact_sends_cta_witness :
    (processWebhook cfgA 7
        { contacts := [{ phone := "15550001", last_kind := some "reply",
                         last_timestamp := 1, total_messages := 2,
                         updated_at := 1 }] }
        (msgOnlyBody msg2)).2.1
      = [Send.interactiveCta "15550001"] :=
  (returningContact_sends_cta cfgA 7
    { contacts := [{ phone := "15550001", last_kind := some "reply",
                     last_timestamp := 1, total_messages := 2, updated_at := 1 }] }
    msg2
    { phone := "15550001", last_kind := some "reply", last_timestamp := 1,
      total_messages := 2, updated_at := 1 }
    rfl rfl (by decide) rfl rfl rfl).1

/-! ### C3 -/

/-- The number of ledger rows carrying a given provider message id. -/
def countId (rows : List MessageRow) (mid : String) : Nat :=
  (rows.filter (fun r => r.message_id = some mid)).length

theorem findSingle_of_countOne (rows : List MessageRow) (mid : String)
    (h : countId rows mid = 1) : ∃ r, findSingle rows mid = some r := by
  rw [countId, List.length_eq_one] at h
  obtain ⟨r, hr⟩ := h
  exact ⟨r, by simp [findSingle, hr]⟩

theorem findSingle_of_countZero (rows : List MessageRow) (mid : String)
    (h : countId rows mid = 0) : findSingle rows mid = none := by
  rw [countId, List.length_eq_zero] at h
  simp [findSingle, h]

theorem countId_updateStatusRows (rows : List MessageRow) (mid v : String)
    (now : Nat) : countId (updateStatusRows rows mid v now) mid = countId rows mid := by
  induction rows with
  | nil => rfl
  | cons r rows ih =>
    by_cases h : r.message_id = some mid <;>
      simp [updateStatusRows, countId, List.filter_cons, h] at ih ⊢ <;>
        simpa [h] using ih

theorem length_updateStatusRows (rows : List MessageRow) (mid v : String)
    (now : Nat) : (updateStatusRows rows mid v now).length = rows.length := by
  simp [updateStatusRows]

theorem mem_updateStatusRows (rows : List MessageRow) (mid v : String)
    (now : Nat) (r : MessageRow) (hr : r ∈ updateStatusRows rows mid v now)
    (hid : r.message_id = some mid) :
    r.status = some v ∧ r.updated_at = some now := by
  rw [updateStatusRows] at hr
  obtain ⟨x, hx, hfx⟩ := List.mem_map.1 hr
  by_cases h : x.message_id = some mid
  · rw [if_pos h] at hfx
    rw [← hfx]
    exact ⟨rfl, rfl⟩
  · rw [if_neg h] at hfx
    rw [← hfx] at hid
    exact absurd hid h

/-- C3: processing a status event whose id matches exactly one ledger
row overwrites that row's `status` and sets `updated_at` without
appending, so the row count for that id stays 1 and the ledger length
is unchanged; a status event with no matching row appends exactly one
new kind=status row. -/
theorem statusEvent_reconciles_ledger (cfg : Config) (now : Nat) (st : Store)
    (s : StatusObj)
    (hc : cfg.configured = true) (hupd : cfg.updateOk = true)
    (hins : cfg.insertOk = true) :
    (countId st.messages s.id = 1 →
        countId (processWebhook cfg now st (statusOnlyBody s)).1.messages s.id = 1
        ∧ (processWebhook cfg now st (statusOnlyBody s)).1.messages.length
            = st.messages.length
        ∧ ∀ r ∈ (processWebhook cfg now st (statusOnlyBody s)).1.messages,
            r.message_id = some s.id →
              r.status = some s.status ∧ r.updated_at = some now)
    ∧ (countId st.messages s.id = 0 →
        (processWebhook cfg now st (statusOnlyBody s)).1.messages
          = st.messages ++
            [{ toMsgPayload :=
                 { kind := "status", «from» := some cfg.phoneNumberId,
                   message_id := some s.id, status := some s.status,
                   «to» := s.recipient_id },
               phone := s.recipient_id, created_at := now,
               updated_at := none }]) := by
  constructor
  · intro hone
    obtain ⟨r, hfs⟩ := findSingle_of_countOne st.messages s.id hone
    have hmsg : (processWebhook cfg now st (statusOnlyBody s)).1.messages
        = updateStatusRows st.messages s.id s.status now := by
      cases ho : (s.recipient_id).or s.«from» <;>
        simp [processWebhook, statusOnlyBody, processStatus, hc, hfs, hupd,
          processMessages, upsertContact_messages, ho]
    rw [hmsg]
    refine ⟨by rw [countId_updateStatusRows]; exact hone,
      length_updateStatusRows _ _ _ _, ?_⟩
    intro r2 hr2 hid2
    exact mem_updateStatusRows st.messages s.id s.status now r2 hr2 hid2
  · intro hzero
    have hfs : findSingle st.messages s.id = none :=
      findSingle_of_countZero st.messages s.id hzero
    cases ho : (s.recipient_id).or s.«from» <;>
      simp [processWebhook, statusOnlyBody, processStatus, hc, hfs,
        processMessages, upsertContact_messages, ho,
        logMessageToSupabase, hins]

/-- A ledger holding exactly one incoming row with id "wamid.9". -/
def stOne : Store :=
  { messages := [{ toMsgPayload :=
                     { kind := "incoming", «from» := some "15550001",
                       type := some "text", body := some "hello",
                       message_id := some "wamid.9" },
                   phone := some "15550001", created_at := 1 }] }

/-- A delivery status callback for "wamid.9". -/
def sW : StatusObj :=
  { id := "wamid.9", status := "delivered", recipient_id := some "15550001" }

/-- Witness for C3: the matching-row case converges to one row with the
new status, and the no-row case appends exactly one status row. -/
theorem statusEvent_reconciles_ledger_witness :
    (countId (processWebhook cfgA 3 stOne (statusOnlyBody sW)).1.messages "wamid.9" = 1
      ∧ (processWebhook cfgA 3 stOne (statusOnlyBody sW)).1.messages.length
          = stOne.messages.length
      ∧ ∀ r ∈ (processWebhook cfgA 3 stOne (statusOnlyBody sW)).1.messages,
          r.message_id = some "wamid.9" →
            r.status = some "delivered" ∧ r.updated_at = some 3)
    ∧ (processWebhook cfgA 3 {} (statusOnlyBody sW)).1.messages
        = [{ toMsgPayload :=
               { kind := "status", «from» := some "BIZ",
                 message_id := some "wamid.9", status := some "delivered",
                 «to» := some "15550001" },
             phone := some "15550001", created_at := 3, updated_at := none }] :=
  ⟨(statusEvent_reconciles_ledger cfgA 3 stOne sW rfl rfl rfl).1 (by decide),
   (statusEvent_reconciles_ledger cfgA 3 {} sW rfl rfl rfl).2 (by decide)⟩

/-! ### C8 -/

theorem handleText_messages_insertFail (cfg : Config) (now : Nat) (st : Store)
    (m : MessageObj) (h : cfg.insertOk = false) :
    ((handleTextMessage cfg now st m).1).messages = st.messages := by
  cases hw : hasReceivedWelcome cfg st m.«from» <;> cases hs : cfg.sendOk <;>
    simp [handleTextMessage, hw, hs, upsertContact_messages,
      logMessage_insertFail, h]

theorem handleInteractive_messages_insertFail (cfg : Config) (now : Nat)
    (st : Store) (m : MessageObj) (h : cfg.insertOk = false) :
    ((handleInteractiveMessage cfg now st m).1).messages = st.messages := by
  cases hi : m.interactive with
  | none => simp [handleInteractiveMessage, hi]
  | some itv =>
    by_cases hl : itv.type = "list_reply"
    · cases hr : itv.list_reply <;> cases hs : cfg.sendOk <;>
        simp [handleInteractiveMessage, hi, hl, hr, hs, upsertContact_messages,
          logMessage_insertFail, h]
    · by_cases hb : itv.type = "button_reply"
      · cases hr : itv.button_reply <;> cases hs : cfg.sendOk <;>
          simp [handleInteractiveMessage, hi, hl, hb, hr, hs,
            upsertContact_messages, logMessage_insertFail, h]
      · simp [handleInteractiveMessage, hi, hl, hb]

theorem handleIncoming_messages_insertFail (cfg : Config) (now : Nat)
    (st : Store) (m : MessageObj) (h : cfg.insertOk = false) :
    ((handleIncomingMessage cfg now st m).1).messages = st.messages := by
  by_cases ht : m.type = "text"
  · simp [handleIncomingMessage, ht, handleText_messages_insertFail, h]
  · by_cases hi : m.type = "interactive"
    · simp [handleIncomingMessage, ht, hi,
        handleInteractive_messages_insertFail, h]
    · simp [handleIncomingMessage, ht, hi]

/-- C8: when every ledger insert fails (store rejects the write) the
failure is absorbed where it happens: processing an incoming message
leaves the ledger untouched but the contact upsert still executes —
the contact row for the sender ends up exactly as the incoming-message
upsert writes it — and the webhook still acknowledges with 200. -/
theorem ledgerFailure_does_not_abort (cfg : Config) (now : Nat) (st : Store)
    (m : MessageObj)
    (hc : cfg.configured = true) (hins : cfg.insertOk = false)
    (hu : cfg.upsertOk = true) (hne : m.«from» ≠ cfg.phoneNumberId) :
    (processWebhook cfg now st (msgOnlyBody m)).1.messages = st.messages
    ∧ (∃ t : Nat,
        findContact (processWebhook cfg now st (msgOnlyBody m)).1.contacts m.«from»
          = some { phone := m.«from», name := none, last_message_id := some m.id,
                   last_body := m.text.map TextObj.body, last_type := some m.type,
                   last_kind := some "incoming", last_direction := some "incoming",
                   last_sender_id := some m.«from», last_recipient_phone := none,
                   last_timestamp := (m.timestamp.map (fun v => v * 1000)).getD now,
                   total_messages := t, updated_at := now })
    ∧ (processWebhook cfg now st (msgOnlyBody m)).2.2 = .ok "Webhook processed" := by
  rcases hH : handleIncomingMessage cfg now st m with ⟨st3, sends, ok3⟩
  have hst3 : st3.messages = st.messages := by
    have := handleIncoming_messages_insertFail cfg now st m hins
    rw [hH] at this
    exact this
  have hred : processWebhook cfg now st (msgOnlyBody m)
      = (upsertContact cfg now st3 m.«from»
          { last_message_id := some m.id
            last_body := m.text.map TextObj.body
            last_type := some m.type
            last_kind := some "incoming"
            last_direction := some "incoming"
            last_sender_id := some m.«from»
            last_recipient_phone := none
            last_timestamp := m.timestamp.map (fun v => v * 1000) },
         sends, .ok "Webhook processed") := by
    simp [processWebhook, msgOnlyBody, processMessages, hne, hH,
      logMessage_insertFail, hins]
  rw [hred]
  refine ⟨by rw [upsertContact_messages]; exact hst3, ⟨?_, ?_⟩, rfl⟩
  · exact oldTotal st3.contacts m.«from» + (if cfg.rpcOk then 1 else 0)
  · rw [findContact_upsertContact cfg now st3 m.«from» _ hc hu]

/-- Witness for C8 at a concrete failing-store configuration. -/
theorem ledgerFailure_does_not_abort_witness :
    (processWebhook { phoneNumberId := "BIZ", insertOk := false } 4 {}
        (msgOnlyBody msg1)).1.messages = ([] : List MessageRow)
    ∧ (∃ t : Nat,
        findContact (processWebhook { phoneNumberId := "BIZ", insertOk := false } 4 {}
            (msgOnlyBody msg1)).1.contacts "15550001"
          = some { phone := "15550001", name := none,
                   last_message_id := some "wamid.1",
                   last_body := some "hello", last_type := some "text",
                   last_kind := some "incoming", last_direction := some "incoming",
                   last_sender_id := some "15550001", last_recipient_phone := none,
                   last_timestamp := 4, total_messages := t, updated_at := 4 })
    ∧ (processWebhook { phoneNumberId := "BIZ", insertOk := false } 4 {}
        (msgOnlyBody msg1)).2.2 = .ok "Webhook processed" :=
  ledgerFailure_does_not_abort { phoneNumberId := "BIZ", insertOk := false }
    4 {} msg1 rfl rfl rfl (by decide)

/-! ### C7 -/

/-- A contact store holding a record whose name was set by the operator. -/
def namedStore : Store :=
  { contacts := [{ phone := "15550001", name := some "Alice",
                   last_timestamp := 0, total_messages := 3, updated_at := 0 }] }

/-- C7 counterexample: processing an ordinary incoming text message DOES
change the contact's `name` field — the message-driven upserts pass no
name, and `upsertContact` writes `update.name || null`, so the
operator-set name "Alice" is wiped to null by the webhook event. -/
theorem webhook_wipes_contact_name :
    (findContact namedStore.contacts "15550001").map ContactRow.name
        = some (some "Alice")
    ∧ (findContact (processWebhook cfgA 1 namedStore (msgOnlyBody msg1)).1.contacts
        "15550001").map ContactRow.name = some none :=
  ⟨rfl, rfl⟩

/-- Name evolution allowed to webhook processing: each phone's stored
name is either untouched or overwritten to null. -/
def NamePres (st st' : Store) : Prop :=
  ∀ p : String, nameOf st' p = nameOf st p ∨ nameOf st' p = some none

theorem namePres_refl (st : Store) : NamePres st st :=
  fun _ => Or.inl rfl

theorem namePres_trans {a b c : Store} (h1 : NamePres a b) (h2 : NamePres b c) :
    NamePres a c := by
  intro p
  rcases h2 p with he | hr
  · rcases h1 p with h1e | h1r
    · exact Or.inl (he.trans h1e)
    · exact Or.inr (he.trans h1r)
  · exact Or.inr hr

theorem namePres_contactsEq {st st' : Store} (h : st'.contacts = st.contacts) :
    NamePres st st' :=
  fun p => Or.inl (by rw [nameOf, nameOf, h])

theorem namePres_log (cfg : Config) (now : Nat) (st : Store) (p : MsgPayload) :
    NamePres st (logMessageToSupabase cfg now st p).1 :=
  namePres_contactsEq (logMessage_contacts cfg now st p)

theorem namePres_upsert (cfg : Config) (now : Nat) (st : Store) (ph : String)
    (u : ContactUpdate) (hn : u.name = none) :
    NamePres st (upsertContact cfg now st ph u) := by
  intro p
  by_cases hp : p = ph
  · subst hp
    cases hc : cfg.configured with
    | false => exact Or.inl (by rw [nameOf, nameOf]; simp [upsertContact, hc])
    | true =>
      cases hu : cfg.upsertOk with
      | false => exact Or.inl (by rw [nameOf, nameOf]; simp [upsertContact, hc, hu])
      | true =>
        right
        rw [nameOf, findContact_upsertContact cfg now st p u hc hu]
        simp [hn]
  · exact Or.inl (by
      rw [nameOf, nameOf, findContact_upsertContact_ne cfg now st ph u p hp])

theorem namePres_handleText (cfg : Config) (now : Nat) (st : Store)
    (m : MessageObj) : NamePres st (handleTextMessage cfg now st m).1 := by
  cases hw : hasReceivedWelcome cfg st m.«from» <;> cases hs : cfg.sendOk <;>
    simp only [handleTextMessage, hw, hs, Bool.not_true, Bool.not_false,
      if_true, if_false, Bool.false_eq_true, Bool.true_eq_false, ite_true, ite_false]
  case false.false => exact namePres_refl st
  case false.true =>
    exact namePres_trans (namePres_log cfg now st _) (namePres_upsert _ _ _ _ _ rfl)
  case true.false => exact namePres_refl st
  case true.true =>
    exact namePres_trans (namePres_log cfg now st _) (namePres_upsert _ _ _ _ _ rfl)

theorem namePres_handleInteractive (cfg : Config) (now : Nat) (st : Store)
    (m : MessageObj) : NamePres st (handleInteractiveMessage cfg now st m).1 := by
  cases hi : m.interactive with
  | none => simp only [handleInteractiveMessage, hi]; exact namePres_refl st
  | some itv =>
    by_cases hl : itv.type = "list_reply"
    · cases hr : itv.list_reply <;> cases hs : cfg.sendOk <;>
        simp only [handleInteractiveMessage, hi, hl, hr, hs, if_true, if_false,
          ite_true, ite_false, Bool.false_eq_true] <;>
        first
          | exact namePres_refl st
          | exact namePres_trans (namePres_log cfg now st _)
              (namePres_upsert _ _ _ _ _ rfl)
    · by_cases hb : itv.type = "button_reply"
      · cases hr : itv.button_reply <;> cases hs : cfg.sendOk <;>
          simp only [handleInteractiveMessage, hi, hl, hb, hr, hs, if_true,
            if_false, ite_true, ite_false, Bool.false_eq_true] <;>
          first
            | exact namePres_refl st
            | exact namePres_trans (namePres_log cfg now st _)
                (namePres_upsert _ _ _ _ _ rfl)
      · simp only [handleInteractiveMessage, hi, hl, hb, if_false, ite_false]
        exact namePres_refl st

theorem namePres_handleIncoming (cfg : Config) (now : Nat) (st : Store)
    (m : MessageObj) : NamePres st (handleIncomingMessage cfg now st m).1 := by
  by_cases ht : m.type = "text"
  · simp only [handleIncomingMessage, ht, if_true, ite_true]
    exact namePres_handleText cfg now st m
  · by_cases hi : m.type = "interactive"
    · simp only [handleIncomingMessage, ht, hi, if_true, if_false, ite_true, ite_false]
      exact namePres_handleInteractive cfg now st m
    · simp only [handleIncomingMessage, ht, hi, if_false, ite_false]
      exact namePres_refl st

theorem namePres_processMessages (cfg : Config) (now : Nat) (st : Store)
    (m? : Option MessageObj) : NamePres st (processMessages cfg now st m?).1 := by
  cases m? with
  | none => exact namePres_refl st
  | some m =>
    by_cases hself : m.«from» = cfg.phoneNumberId
    · simp only [processMessages, hself, if_true, ite_true]
      exact namePres_refl st
    · rcases hH : handleIncomingMessage cfg now st m with ⟨st3, sends, ok3⟩
      have h3 : NamePres st st3 := by
        have := namePres_handleIncoming cfg now st m
        rw [hH] at this
        exact this
      simp only [processMessages, hself, hH, if_false, ite_false]
      exact namePres_trans h3
        (namePres_trans (namePres_log cfg now st3 _)
          (namePres_upsert _ _ _ _ _ rfl))

theorem namePres_processStatus (cfg : Config) (now : Nat) (st : Store)
    (s : StatusObj) (m? : Option MessageObj) :
    NamePres st (processStatus cfg now st s m?).1 := by
  cases hc : cfg.configured with
  | false => simp only [processStatus, hc, Bool.false_eq_true, if_false, ite_false]; exact namePres_refl st
  | true =>
    simp only [processStatus, hc, if_true, ite_true]
    have h1 : NamePres st
        (match findSingle st.messages s.id with
         | some _ =>
           if cfg.updateOk then
             { st with messages := updateStatusRows st.messages s.id s.status now }
           else st
         | none =>
           (logMessageToSupabase cfg now st
             { kind := "status", «from» := some cfg.phoneNumberId,
               message_id := some s.id, status := some s.status,
               «to» := s.recipient_id }).1) := by
      cases findSingle st.messages s.id with
      | some r =>
        cases cfg.updateOk with
        | false => exact namePres_refl st
        | true => exact namePres_contactsEq rfl
      | none => exact namePres_log cfg now st _
    generalize hst1 :
      (match findSingle st.messages s.id with
       | some _ =>
         if cfg.updateOk then
           { st with messages := updateStatusRows st.messages s.id s.status now }
         else st
       | none =>
         (logMessageToSupabase cfg now st
           { kind := "status", «from» := some cfg.phoneNumberId,
             message_id := some s.id, status := some s.status,
             «to» := s.recipient_id }).1) = st1 at h1 ⊢
    have h2 : NamePres st
        (match ((s.recipient_id).or s.«from»).or (m?.map MessageObj.from) with
         | none => st1
         | some ph => upsertContact cfg now st1 ph
             { last_message_id := some s.id, last_body := some s.status,
               last_type := some "status", last_kind := some "status",
               last_direction := some "incoming",
               last_sender_id := some cfg.phoneNumberId,
               last_recipient_phone := s.recipient_id }) := by
      cases ((s.recipient_id).or s.«from»).or (m?.map MessageObj.from) with
      | none => exact h1
      | some ph => exact namePres_trans h1 (namePres_upsert _ _ _ _ _ rfl)
    generalize hst2 :
      (match ((s.recipient_id).or s.«from»).or (m?.map MessageObj.from) with
       | none => st1
       | some ph => upsertContact cfg now st1 ph
           { last_message_id := some s.id, last_body := some s.status,
             last_type := some "status", last_kind := some "status",
             last_direction := some "incoming",
             last_sender_id := some cfg.phoneNumberId,
             last_recipient_phone := s.recipient_id }) = st2 at h2 ⊢
    exact namePres_trans h2 (namePres_processMessages cfg now st2 m?)

theorem namePres_processWebhook (cfg : Config) (now : Nat) (st : Store)
    (body : WebhookBody) : NamePres st (processWebhook cfg now st body).1 := by
  match hb : body.entry with
  | none => simp only [processWebhook, hb]; exact namePres_refl st
  | some [] => simp only [processWebhook, hb]; exact namePres_refl st
  | some (e :: es) =>
    match hch : e.changes with
    | none => simp only [processWebhook, hb, hch]; exact namePres_refl st
    | some [] => simp only [processWebhook, hb, hch]; exact namePres_refl st
    | some (c :: cs) =>
      match hv : c.value with
      | none => simp only [processWebhook, hb, hch, hv]; exact namePres_refl st
      | some value =>
        simp only [processWebhook, hb, hch, hv]
        cases value.statuses.head? with
        | some s => exact namePres_processStatus cfg now st s value.messages.head?
        | none => exact namePres_processMessages cfg now st value.messages.head?

/-- C7 (amended): webhook processing never assigns a contact a non-null
name — every message-driven upsert either leaves a phone's stored name
unchanged or overwrites it to null (it never invents one from message
content) — while the explicit set-name action does set the name to the
supplied value. -/
theorem webhook_never_names_contacts (cfg : Config) (now : Nat) (st : Store)
    (body : WebhookBody) (p : String) :
    (nameOf (processWebhook cfg now st body).1 p = nameOf st p
      ∨ nameOf (processWebhook cfg now st body).1 p = some none)
    ∧ (∀ (nm : String) (cc : ContactRow),
        cfg.configured = true → cfg.upsertOk = true →
        findContact (setNameUpsert cfg now st p nm).contacts p = some cc →
        cc.name = some nm) := by
  constructor
  · exact namePres_processWebhook cfg now st body p
  · intro nm cc hc hu hf
    rw [setNameUpsert, findContact_upsertContact cfg now st p _ hc hu] at hf
    have : cc = { phone := p, name := some nm,
                  last_message_id := none, last_body := none, last_type := none,
                  last_kind := none, last_direction := none, last_sender_id := none,
                  last_recipient_phone := none, last_timestamp := now,
                  total_messages :=
                    oldTotal st.contacts p + (if cfg.rpcOk then 1 else 0),
                  updated_at := now } := by
      injection hf.symm
    rw [this]

/-- Witness for C7's amended theorem at concrete inputs. -/
theorem webhook_never_names_contacts_witness :
    (nameOf (processWebhook cfgA 1 ({} : Store) (msgOnlyBody msg1)).1 "p9"
        = nameOf ({} : Store) "p9"
      ∨ nameOf (processWebhook cfgA 1 ({} : Store) (msgOnlyBody msg1)).1 "p9"
        = some none)
    ∧ ({ phone := "p9", name := some "Alice", last_message_id := none,
         last_body := none, last_type := none, last_kind := none,
         last_direction := none, last_sender_id := none,
         last_recipient_phone := none, last_timestamp := 1,
         total_messages := 1, updated_at := 1 } : ContactRow).name
        = some "Alice" :=
  ⟨(webhook_never_names_contacts cfgA 1 {} (msgOnlyBody msg1) "p9").1,
   (webhook_never_names_contacts cfgA 1 {} (msgOnlyBody msg1) "p9").2 "Alice"
     _ rfl rfl rfl⟩

/-! ### C9 -/

/-- C9 counterexample: a request with `limit=0` is served with an
effective page size of 50 (JS `Number(limit) || 50` treats 0 as
falsy), not the claimed `min(requested, 200) = 0`. -/
theorem logsRoute_zero_limit_defaults :
    logsRoute cfgA {} { limit := some 0 } = .page 1 50 0 []
    ∧ (50 : Int) ≠ min 0 200 :=
  ⟨rfl, by decide⟩

/-- C9 (amended): for a configured store and a limit that is absent,
non-numeric, or a nonnegative integer, the effective page size is the
requested limit clamped to 200, defaulting to 50 when the limit is
absent, non-numeric or zero; the 1-indexed page is clamped to at least
1; the returned total is the exact number of matching rows; and the
returned page is the corresponding slice of the reverse-chronological
(by `created_at`) ordering of the matching rows. -/
theorem logsRoute_pagination (cfg : Config) (st : Store) (q : LogsQuery)
    (hc : cfg.configured = true)
    (hlim : q.limit = none ∨ ∃ v : Int, q.limit = some v ∧ 0 ≤ v) :
    ∃ data : List MessageRow,
      logsRoute cfg st q
        = .page (max (jsNumberOr q.page 1) 1) (min (jsNumberOr q.limit 50) 200)
            ((st.messages.filter (matchesLogsFilter q)).length) data
      ∧ 1 ≤ max (jsNumberOr q.page 1) 1
      ∧ List.Sorted byCreatedDesc data
      ∧ rangeSlice
          ((st.messages.filter (matchesLogsFilter q)).insertionSort byCreatedDesc)
          ((max (jsNumberOr q.page 1) 1 - 1) * min (jsNumberOr q.limit 50) 200)
          ((max (jsNumberOr q.page 1) 1 - 1) * min (jsNumberOr q.limit 50) 200
            + min (jsNumberOr q.limit 50) 200 - 1)
          = some data := by
  have hl1 : (1 : Int) ≤ min (jsNumberOr q.limit 50) 200 := by
    rcases hlim with h | ⟨v, hv, hv0⟩
    · rw [h]
      decide
    · rw [hv]
      rcases eq_or_ne v 0 with rfl | hvne
      · decide
      · simp only [jsNumberOr, if_neg hvne]
        omega
  have hp1 : (1 : Int) ≤ max (jsNumberOr q.page 1) 1 := le_max_right _ _
  have hlo : 0 ≤ (max (jsNumberOr q.page 1) 1 - 1) * min (jsNumberOr q.limit 50) 200 :=
    mul_nonneg (by omega) (by omega)
  have hhi : (max (jsNumberOr q.page 1) 1 - 1) * min (jsNumberOr q.limit 50) 200
      ≤ (max (jsNumberOr q.page 1) 1 - 1) * min (jsNumberOr q.limit 50) 200
        + min (jsNumberOr q.limit 50) 200 - 1 := by omega
  refine ⟨(((st.messages.filter (matchesLogsFilter q)).insertionSort
        byCreatedDesc).drop
          ((max (jsNumberOr q.page 1) 1 - 1)
            * min (jsNumberOr q.limit 50) 200).toNat).take
      ((max (jsNumberOr q.page 1) 1 - 1) * min (jsNumberOr q.limit 50) 200
        + min (jsNumberOr q.limit 50) 200 - 1
        - (max (jsNumberOr q.page 1) 1 - 1) * min (jsNumberOr q.limit 50) 200
        + 1).toNat,
    ?_, hp1, ?_, ?_⟩
  · rw [logsRoute]
    simp only [hc, if_true, ite_true]
    rw [rangeSlice, if_pos ⟨hlo, hhi⟩]
    rw [List.length_insertionSort]
  · have hsorted : List.Sorted byCreatedDesc
        ((st.messages.filter (matchesLogsFilter q)).insertionSort byCreatedDesc) :=
      List.sorted_insertionSort byCreatedDesc _
    have hsub : List.Sublist
        ((((st.messages.filter (matchesLogsFilter q)).insertionSort
            byCreatedDesc).drop
              ((max (jsNumberOr q.page 1) 1 - 1)
                * min (jsNumberOr q.limit 50) 200).toNat).take
          ((max (jsNumberOr q.page 1) 1 - 1) * min (jsNumberOr q.limit 50) 200
            + min (jsNumberOr q.limit 50) 200 - 1
            - (max (jsNumberOr q.page 1) 1 - 1) * min (jsNumberOr q.limit 50) 200
            + 1).toNat)
        ((st.messages.filter (matchesLogsFilter q)).insertionSort byCreatedDesc) :=
      (List.take_sublist _ _).trans (List.drop_sublist _ _)
    exact hsorted.sublist hsub
  · rw [rangeSlice, if_pos ⟨hlo, hhi⟩]

/-- Witness for C9's amended theorem at a concrete query. -/
theorem logsRoute_pagination_witness :
    ∃ data : List MessageRow,
      logsRoute cfgA stOne { limit := some 7, page := some 2 }
        = .page 2 7 (stOne.messages.filter
            (matchesLogsFilter { limit := some 7, page := some 2 })).length data
      ∧ (1 : Int) ≤ 2
      ∧ List.Sorted byCreatedDesc data
      ∧ rangeSlice ((stOne.messages.filter
            (matchesLogsFilter { limit := some 7, page := some 2 })).insertionSort
              byCreatedDesc) 7 13 = some data := by
  have h := logsRoute_pagination cfgA stOne { limit := some 7, page := some 2 }
    rfl (Or.inr ⟨7, rfl, by decide⟩)
  simpa using h

end WAHandler
